import Mathlib

/-!
Shallow embedding of the worker-extension / external-worker-pipe subsystem of
frankenphp (files `workerextension.go` and `threadFramework.go`).

Conventions of the embedding:
* Go pointers and nilable interface values are `Option _`; a nil pointer is `none`.
* Opaque external values (`*http.Request`, `http.ResponseWriter`, the request
  value returned by `NewRequestWithContext`, function values stored in
  `AfterFunc`) are represented by `Nat` tokens: the subsystem never inspects
  them, it only passes them around, so only their identity matters.
* `atomic.Int32` counters are represented by their 32-bit two complement bit
  pattern, a `Nat` strictly below `2 ^ 32`; `atomic.Int32.Add` is addition
  modulo `2 ^ 32` (`add32`), and `toInt32` reads a bit pattern back as the
  signed integer it denotes.
* A Go channel is represented by its FIFO contents (a `List`) together with
  the capacity it was created with; send appends, receive takes the head.
  Blocking is abstracted away: the embedding records what is transferred and
  in which order, not when the transfer unblocks.
-/

/-- Opaque token standing for a non-nil `*http.Request`. -/
abbrev HttpRequest := Nat

/-- Opaque token standing for a non-nil `http.ResponseWriter`. -/
abbrev RespWriter := Nat

/-- Opaque Go `any` value (used for `CallbackParameters` and `handlerReturn`);
`none` is the nil interface value. -/
abbrev GoVal := Option Nat

/-- Opaque token identifying a non-nil Go function value stored in `AfterFunc`. -/
abbrev CallbackId := Nat

/-- A Go `error` value. -/
abbrev GoError := String

/-- Opaque token standing for the `*http.Request` built by
`NewRequestWithContext` (it carries the context that `fromContext` reads). -/
abbrev FrankenRequest := Nat

/-- `PreparedEnv` (`map[string]string`), as an association list. -/
abbrev PreparedEnv := List (String × String)

/-- The `WorkerRequest` value object of `workerextension.go` (the generic
`WorkerRequest[P, R]` of `threadFramework.go` has the same shape with `P`, `R`
instantiated to `any`). `Request` is a nilable pointer, `Response` a nilable
interface, `AfterFunc` a nilable function value. -/
structure WorkerRequest where
  Request : Option HttpRequest
  Response : Option RespWriter
  CallbackParameters : GoVal
  AfterFunc : Option CallbackId
  deriving DecidableEq, Repr

/-- The fields of the engine-internal `frankenPHPContext` that the pipe loops
read or write: the owning worker (a pointer, modelled by the worker name), the
response writer, the handler parameters, and whether `fc.logger` was set.
`originalRequest` records which inbound request, if any, the context was
adapted from. -/
structure frankenPHPContext where
  originalRequest : Option HttpRequest
  worker : Option String
  responseWriter : Option RespWriter
  handlerParameters : GoVal
  hasLogger : Bool
  deriving DecidableEq, Repr

/-- Modelled from the spec: `newFrankenPHPContext` is defined outside the
files at hand; per the spec it synthesizes an empty request context carrying
no real inbound request. -/
def newFrankenPHPContext : frankenPHPContext :=
  { originalRequest := none
    worker := none
    responseWriter := none
    handlerParameters := none
    hasLogger := false }

/-- Log levels used by the two pipe loops. -/
inductive LogLevel where
  | info
  | warn
  | error
  deriving DecidableEq, Repr

/-- One `logger.LogAttrs` record emitted by a pipe loop: level, message, the
`worker` attribute (`w.name`), the `thread` attribute (`thread.threadIndex`),
and the `error` attribute when present. -/
structure LogEntry where
  level : LogLevel
  message : String
  workerName : String
  threadIndex : Int
  err : Option GoError
  deriving DecidableEq, Repr

/- ------------------------------------------------------------------ -/
/- The default worker implementation (`workerextension.go`, lines 110-167) -/
/- ------------------------------------------------------------------ -/

/-- 32-bit wrap-around addition on bit patterns: `atomic.Int32.Add`. -/
def add32 (x y : Nat) : Nat := (x + y) % 4294967296

/-- Read a 32-bit bit pattern as the signed integer it denotes. -/
def toInt32 (x : Nat) : Int :=
  if x < 2147483648 then (x : Int) else (x : Int) - 4294967296

/-- The `defaultWorker` struct. `requestChanCap` is the capacity the channel
`requestChan` was created with; `requestChan` is its FIFO contents. The two
counters hold `atomic.Int32` bit patterns. -/
structure defaultWorker where
  name : String
  fileName : String
  env : PreparedEnv
  minThreads : Int
  requestChanCap : Nat
  requestChan : List WorkerRequest
  activatedCount : Nat
  drainCount : Nat
  deriving DecidableEq, Repr

/-- `NewWorker`: builds a `defaultWorker` with
`requestChan: make(chan *WorkerRequest)` — an unbuffered channel, capacity 0 —
and zeroed counters. -/
def NewWorker (name fileName : String) (minThreads : Int) (env : PreparedEnv) :
    defaultWorker :=
  { name := name
    fileName := fileName
    env := env
    minThreads := minThreads
    requestChanCap := 0
    requestChan := []
    activatedCount := 0
    drainCount := 0 }

/-- `(*defaultWorker).ThreadActivatedNotification`: ignores the thread id and
adds 1 to `activatedCount`. -/
def ThreadActivatedNotification (w : defaultWorker) (threadId : Int) :
    defaultWorker :=
  { w with activatedCount := add32 w.activatedCount 1 }

/-- `(*defaultWorker).ThreadDrainNotification`: ignores the thread id and adds
1 to `drainCount`. -/
def ThreadDrainNotification (w : defaultWorker) (threadId : Int) :
    defaultWorker :=
  { w with drainCount := add32 w.drainCount 1 }

/-- `(*defaultWorker).ThreadDeactivatedNotification`: ignores the thread id
and adds -1 to both `drainCount` and `activatedCount`. -/
def ThreadDeactivatedNotification (w : defaultWorker) (threadId : Int) :
    defaultWorker :=
  { w with drainCount := add32 w.drainCount 4294967295
           activatedCount := add32 w.activatedCount 4294967295 }

/-- `(*defaultWorker).ProvideRequest`: receive from `requestChan` — dequeue
the oldest element; returns the received value and the worker afterwards. -/
def ProvideRequest (w : defaultWorker) : Option WorkerRequest × defaultWorker :=
  (w.requestChan.head?, { w with requestChan := w.requestChan.tail })

/-- `(*defaultWorker).InjectRequest`: send on `requestChan` — enqueue at the
back. -/
def InjectRequest (w : defaultWorker) (r : WorkerRequest) : defaultWorker :=
  { w with requestChan := w.requestChan ++ [r] }

/-- The state component of one `ProvideRequest` call. -/
def provideNext (w : defaultWorker) : defaultWorker := (ProvideRequest w).2

/-- The value returned by the `(i+1)`-st successive `ProvideRequest` call
(indices from 0) with no interleaved injections. -/
def provideSeq (w : defaultWorker) (i : Nat) : Option WorkerRequest :=
  (ProvideRequest (provideNext^[i] w)).1

/- ------------------------------------------------------------------ -/
/- The registries (`workerextension.go` lines 56-65, `threadFramework.go`
   lines 54-63) -/
/- ------------------------------------------------------------------ -/

/-- An arbitrary value implementing the `Worker` / `WorkerExtension`
interface, as far as registration is concerned: registration only calls
`Name()`. `tag` distinguishes different handles that share a name. -/
structure WorkerIface where
  name : String
  tag : Nat
  deriving DecidableEq, Repr

/-- The `Name()` method of a registered handle. -/
def WorkerIface.Name (w : WorkerIface) : String := w.name

/-- The `extensionWorkers` / `externalWorkers` map: worker name to handle. -/
abbrev Registry := String → Option WorkerIface

/-- `RegisterWorker` (`workerextension.go`): under the mutex,
`extensionWorkers[worker.Name()] = worker`. -/
def RegisterWorker (reg : Registry) (w : WorkerIface) : Registry :=
  fun n => if n = w.Name then some w else reg n

/-- `RegisterExternalWorker` (`threadFramework.go`): under the mutex,
`externalWorkers[worker.Name()] = worker`. -/
def RegisterExternalWorker (reg : Registry) (w : WorkerIface) : Registry :=
  fun n => if n = w.Name then some w else reg n

/- ------------------------------------------------------------------ -/
/- The pipe loops (`startWorker` in workerextension.go lines 68-108,
   `startExternalWorkerPipe` in threadFramework.go lines 66-101) -/
/- ------------------------------------------------------------------ -/

/-- What one iteration of a pipe loop does with the `WorkerRequest` that
`ProvideRequest` returned:

* `panicNilDeref` — the iteration dereferences a nil `*WorkerRequest`
  (a Go runtime panic that kills the goroutine);
* `skip log?` — the iteration reaches the next iteration without sending
  anything on `w.requestChan`, having emitted the given log record (or none);
* `dispatched fc after log` — the iteration sends `fc` on `w.requestChan`,
  `after` is the `AfterFunc` of the unit (a waiter goroutine is spawned iff it
  is non-nil), and `log` is the info record logged before the send. -/
inductive IterOutcome where
  | panicNilDeref : IterOutcome
  | skip : Option LogEntry → IterOutcome
  | dispatched : frankenPHPContext → Option CallbackId → LogEntry → IterOutcome
  deriving DecidableEq, Repr

/-- Whether the iteration sent a request context on `w.requestChan`. -/
def IterOutcome.isDispatched : IterOutcome → Bool
  | .dispatched _ _ _ => true
  | _ => false

/-- The log record the iteration emitted, if any. -/
def IterOutcome.logOf : IterOutcome → Option LogEntry
  | .panicNilDeref => none
  | .skip l => l
  | .dispatched _ _ l => some l

/-- One iteration of the `startWorker` pipe loop (`workerextension.go` lines
69-107), after `rq := extensionWorker.ProvideRequest()` returned `rq`.

`adapt` stands for `NewRequestWithContext(rq.Request, WithOriginalRequest(...))`
and `fromCtx` for `fromContext(fr.Context())`; both are defined outside the
files at hand, so the iteration is parameterized over their results.

Faithful to the source: a nil `rq` is dereferenced by `rq.Request` (nil
pointer panic); a nil `rq.Request` yields `newFrankenPHPContext()` with
`fc.logger = logger`; an adaptation error is logged and skipped; a failed
`fromContext` lookup is skipped silently; otherwise `fc.worker`,
`fc.responseWriter` and `fc.handlerParameters` are set, the queueing is
logged at info level, and `fc` is sent on `w.requestChan`. -/
def startWorkerIter (workerName : String) (threadIndex : Int)
    (adapt : HttpRequest → Except GoError FrankenRequest)
    (fromCtx : FrankenRequest → Option frankenPHPContext) :
    Option WorkerRequest → IterOutcome
  | none => .panicNilDeref
  | some rq =>
    match rq.Request with
    | none =>
      .dispatched
        { newFrankenPHPContext with
            hasLogger := true
            worker := some workerName
            responseWriter := rq.Response
            handlerParameters := rq.CallbackParameters }
        rq.AfterFunc
        { level := .info
          message := "queue the external worker request"
          workerName := workerName
          threadIndex := threadIndex
          err := none }
    | some r =>
      match adapt r with
      | .error e =>
        .skip (some
          { level := .error
            message := "error creating request for external worker"
            workerName := workerName
            threadIndex := threadIndex
            err := some e })
      | .ok fr =>
        match fromCtx fr with
        | none => .skip none
        | some fc =>
          .dispatched
            { fc with
                worker := some workerName
                responseWriter := rq.Response
                handlerParameters := rq.CallbackParameters }
            rq.AfterFunc
            { level := .info
              message := "queue the external worker request"
              workerName := workerName
              threadIndex := threadIndex
              err := none }

/-- One iteration of the `startExternalWorkerPipe` loop
(`threadFramework.go` lines 67-100), after `ProvideRequest()` returned `rq`.

Faithful to the source: a nil `rq` or a nil `rq.Request` is logged at warn
level and skipped (no synthetic context); an adaptation error is logged at
error level and skipped; a failed `fromContext` lookup falls through the `ok`
branch silently; otherwise `fc.responseWriter` and `fc.handlerParameters` are
set (the worker is conveyed through `WithWorkerName`, `fc.worker` is not
assigned here), the queueing is logged, and `fc` is sent on
`w.requestChan`. -/
def startExternalWorkerPipeIter (workerName : String) (threadIndex : Int)
    (adapt : HttpRequest → Except GoError FrankenRequest)
    (fromCtx : FrankenRequest → Option frankenPHPContext) :
    Option WorkerRequest → IterOutcome
  | none =>
    .skip (some
      { level := .warn
        message := "external worker provided nil request"
        workerName := workerName
        threadIndex := threadIndex
        err := none })
  | some rq =>
    match rq.Request with
    | none =>
      .skip (some
        { level := .warn
          message := "external worker provided nil request"
          workerName := workerName
          threadIndex := threadIndex
          err := none })
    | some r =>
      match adapt r with
      | .error e =>
        .skip (some
          { level := .error
            message := "error creating request for external worker"
            workerName := workerName
            threadIndex := threadIndex
            err := some e })
      | .ok fr =>
        match fromCtx fr with
        | none => .skip none
        | some fc =>
          .dispatched
            { fc with
                responseWriter := rq.Response
                handlerParameters := rq.CallbackParameters }
            rq.AfterFunc
            { level := .info
              message := "queue the external worker request"
              workerName := workerName
              threadIndex := threadIndex
              err := none }

/-- The `startWorker` loop over a stream of `ProvideRequest` results: each
unit is processed by `startWorkerIter`; the unconditional `for` only stops if
an iteration panics (the goroutine dies). -/
def startWorkerLoop (workerName : String) (threadIndex : Int)
    (adapt : HttpRequest → Except GoError FrankenRequest)
    (fromCtx : FrankenRequest → Option frankenPHPContext) :
    List (Option WorkerRequest) → List IterOutcome
  | [] => []
  | rq :: rest =>
    match startWorkerIter workerName threadIndex adapt fromCtx rq with
    | .panicNilDeref => [.panicNilDeref]
    | o => o :: startWorkerLoop workerName threadIndex adapt fromCtx rest

/-- The `startExternalWorkerPipe` loop over a stream of `ProvideRequest`
results: no iteration can panic, every unit is processed. -/
def startExternalWorkerPipeLoop (workerName : String) (threadIndex : Int)
    (adapt : HttpRequest → Except GoError FrankenRequest)
    (fromCtx : FrankenRequest → Option frankenPHPContext)
    (l : List (Option WorkerRequest)) : List IterOutcome :=
  l.map (startExternalWorkerPipeIter workerName threadIndex adapt fromCtx)

/- ------------------------------------------------------------------ -/
/- The detached completion waiter (`workerextension.go` lines 98-106,
   `threadFramework.go` lines 90-98) -/
/- ------------------------------------------------------------------ -/

/-- An event of the detached waiter goroutine spawned after a dispatch:
first it blocks on the completion signal `<-fc.done`, then it calls the
`AfterFunc` callback with `fc.handlerReturn`. -/
inductive WaiterEvent where
  | awaitDone : WaiterEvent
  | invoke : CallbackId → GoVal → WaiterEvent
  deriving DecidableEq, Repr

/-- Whether a waiter event is a callback invocation. -/
def WaiterEvent.isInvoke : WaiterEvent → Bool
  | .invoke _ _ => true
  | _ => false

/-- Number of callback invocations in a waiter trace. -/
def invokeCount (tr : List WaiterEvent) : Nat :=
  (tr.filter WaiterEvent.isInvoke).length

/-- The event trace of the waiter machinery for one iteration outcome, given
`handlerReturn` — the value the engine stores into the context before firing
its done signal. A waiter goroutine exists only for a dispatched unit with a
non-nil `AfterFunc` (`if rq.AfterFunc != nil { go func() { ... } }`); its body
receives from `fc.done` and then invokes the callback once with
`fc.handlerReturn`. For any other outcome, no goroutine is spawned and
nothing runs. -/
def waiterTrace (o : IterOutcome) (handlerReturn : GoVal) : List WaiterEvent :=
  match o with
  | .dispatched _ (some cb) _ => [.awaitDone, .invoke cb handlerReturn]
  | _ => []

/- ------------------------------------------------------------------ -/
/- Theorems -/
/- ------------------------------------------------------------------ -/

/-- Helper: successive `ProvideRequest` calls read the channel contents in
order. -/
theorem provideSeq_eq_getElem (i : Nat) (w : defaultWorker) :
    provideSeq w i = w.requestChan[i]? := by
  induction i generalizing w with
  | zero =>
    simp [provideSeq, ProvideRequest, List.head?_eq_getElem?]
  | succ n ih =>
    have hs : provideNext^[n + 1] w = provideNext^[n] (provideNext w) :=
      Function.iterate_succ_apply provideNext n w
    have h1 : provideSeq w (n + 1) = provideSeq (provideNext w) n := by
      simp [provideSeq, hs]
    rw [h1, ih]
    cases h : w.requestChan with
    | nil => simp [provideNext, ProvideRequest, h]
    | cons a as => simp [provideNext, ProvideRequest, h]

/-- Claim C5: executing `ThreadActivatedNotification`, `ThreadDrainNotification`,
`ThreadDeactivatedNotification` in sequence on the default worker, with any
thread id, leaves both `activatedCount` and `drainCount` at their values
before the sequence. -/
theorem claim_C5_lifecycle_net_zero (w : defaultWorker) (t : Int)
    (ha : w.activatedCount < 4294967296) (hd : w.drainCount < 4294967296) :
    (ThreadDeactivatedNotification
        (ThreadDrainNotification (ThreadActivatedNotification w t) t)
        t).activatedCount = w.activatedCount ∧
    (ThreadDeactivatedNotification
        (ThreadDrainNotification (ThreadActivatedNotification w t) t)
        t).drainCount = w.drainCount := by
  simp only [ThreadActivatedNotification, ThreadDrainNotification,
    ThreadDeactivatedNotification, add32]
  constructor <;> omega

/-- Witness for C5 at a concrete worker and thread id. -/
theorem claim_C5_witness :
    (ThreadDeactivatedNotification
        (ThreadDrainNotification
          (ThreadActivatedNotification (NewWorker "w" "f.php" 1 []) 7) 7)
        7).activatedCount = (NewWorker "w" "f.php" 1 []).activatedCount ∧
    (ThreadDeactivatedNotification
        (ThreadDrainNotification
          (ThreadActivatedNotification (NewWorker "w" "f.php" 1 []) 7) 7)
        7).drainCount = (NewWorker "w" "f.php" 1 []).drainCount :=
  claim_C5_lifecycle_net_zero (NewWorker "w" "f.php" 1 []) 7
    (by decide) (by decide)

/-- Claim C6: `ThreadDeactivatedNotification` decrements both `drainCount` and
`activatedCount` by one (reading the `atomic.Int32` bit patterns as signed
values), from any counter state — in particular from states never touched by
`ThreadDrainNotification`, since the adjustment depends only on the current
state. The hypotheses exclude only out-of-range bit patterns and the signed
minimum, where a 32-bit decrement wraps. -/
theorem claim_C6_deactivate_decrements_both (w : defaultWorker) (t : Int)
    (ha : w.activatedCount < 4294967296) (hd : w.drainCount < 4294967296)
    (hamin : w.activatedCount ≠ 2147483648) (hdmin : w.drainCount ≠ 2147483648) :
    toInt32 (ThreadDeactivatedNotification w t).drainCount
      = toInt32 w.drainCount - 1 ∧
    toInt32 (ThreadDeactivatedNotification w t).activatedCount
      = toInt32 w.activatedCount - 1 := by
  simp only [ThreadDeactivatedNotification, add32, toInt32]
  constructor <;> (split <;> split <;> omega)

/-- Witness for C6: deactivation on a fresh worker (no preceding drain) takes
both counters from 0 to -1. -/
theorem claim_C6_witness :
    toInt32 (ThreadDeactivatedNotification (NewWorker "w" "f.php" 1 []) 3).drainCount
      = toInt32 (NewWorker "w" "f.php" 1 []).drainCount - 1 ∧
    toInt32 (ThreadDeactivatedNotification (NewWorker "w" "f.php" 1 []) 3).activatedCount
      = toInt32 (NewWorker "w" "f.php" 1 []).activatedCount - 1 :=
  claim_C6_deactivate_decrements_both (NewWorker "w" "f.php" 1 []) 3
    (by decide) (by decide) (by decide) (by decide)

/-- Claim C10: the three lifecycle notifications of the default worker ignore
their thread-id argument: from a common state, any two thread ids produce
identical worker states, so the counters record only how many calls of each
kind occurred. -/
theorem claim_C10_thread_id_irrelevant (w : defaultWorker) (t1 t2 : Int) :
    ThreadActivatedNotification w t1 = ThreadActivatedNotification w t2 ∧
    ThreadDrainNotification w t1 = ThreadDrainNotification w t2 ∧
    ThreadDeactivatedNotification w t1 = ThreadDeactivatedNotification w t2 :=
  ⟨rfl, rfl, rfl⟩

/-- Claim C7: injecting `A` then `B` into a default worker channel with no
interleaved `ProvideRequest` appends them in order, and the dequeue sequence
returns `A` (at position `|queue|`) strictly before `B` (at position
`|queue| + 1`). -/
theorem claim_C7_fifo_order (w : defaultWorker) (A B : WorkerRequest) :
    provideSeq (InjectRequest (InjectRequest w A) B) w.requestChan.length
      = some A ∧
    provideSeq (InjectRequest (InjectRequest w A) B) (w.requestChan.length + 1)
      = some B := by
  have hq : (InjectRequest (InjectRequest w A) B).requestChan
      = w.requestChan ++ [A, B] := by
    simp [InjectRequest]
  constructor
  · rw [provideSeq_eq_getElem, hq,
      List.getElem?_append_right (Nat.le_refl _), Nat.sub_self]
    rfl
  · rw [provideSeq_eq_getElem, hq,
      List.getElem?_append_right (Nat.le_succ _)]
    have h1 : w.requestChan.length + 1 - w.requestChan.length = 1 := by omega
    rw [h1]
    rfl

/-- Claim C8: registering two handles with the same `Name` leaves the registry
mapping that name to the second one (last writer wins), in both registries,
and re-registering the same handle changes nothing (idempotent per
identity). -/
theorem claim_C8_registry_overwrite (reg : Registry) (h1 h2 : WorkerIface)
    (hname : h1.Name = h2.Name) :
    RegisterWorker (RegisterWorker reg h1) h2 h2.Name = some h2 ∧
    RegisterExternalWorker (RegisterExternalWorker reg h1) h2 h2.Name
      = some h2 ∧
    RegisterWorker (RegisterWorker reg h2) h2 = RegisterWorker reg h2 ∧
    RegisterExternalWorker (RegisterExternalWorker reg h2) h2
      = RegisterExternalWorker reg h2 := by
  refine ⟨by simp [RegisterWorker], by simp [RegisterExternalWorker], ?_, ?_⟩ <;>
    · funext n
      simp only [RegisterWorker, RegisterExternalWorker]
      split <;> rfl

/-- Witness for C8: two concrete handles named `w`, the second wins. -/
theorem claim_C8_witness :
    RegisterWorker (RegisterWorker (fun _ => none) ⟨"w", 1⟩) ⟨"w", 2⟩
        (WorkerIface.Name ⟨"w", 2⟩) = some ⟨"w", 2⟩ ∧
    RegisterExternalWorker (RegisterExternalWorker (fun _ => none) ⟨"w", 1⟩)
        ⟨"w", 2⟩ (WorkerIface.Name ⟨"w", 2⟩) = some ⟨"w", 2⟩ ∧
    RegisterWorker (RegisterWorker (fun _ => none) ⟨"w", 2⟩) ⟨"w", 2⟩
      = RegisterWorker (fun _ => none) ⟨"w", 2⟩ ∧
    RegisterExternalWorker (RegisterExternalWorker (fun _ => none) ⟨"w", 2⟩)
        ⟨"w", 2⟩ = RegisterExternalWorker (fun _ => none) ⟨"w", 2⟩ :=
  claim_C8_registry_overwrite (fun _ => none) ⟨"w", 1⟩ ⟨"w", 2⟩ rfl

/-- Claim C3 counterexample: `NewWorker` with `minThreads = 1` (the values the
test suite uses) creates `requestChan` with `make(chan *WorkerRequest)` — an
unbuffered channel of capacity 0, not capacity `minThreads`. -/
theorem claim_C3_counterexample :
    (NewWorker "mockWorker" "testdata/worker.php" 1 []).requestChanCap = 0 ∧
    (NewWorker "mockWorker" "testdata/worker.php" 1 []).requestChanCap ≠ 1 :=
  ⟨rfl, by decide⟩

/-- Claim C3 amended: the default worker built by `NewWorker` uses a single
unbuffered queue (capacity 0, not `minThreads`), empty at construction, with
`InjectRequest` as enqueue and `ProvideRequest` as dequeue: providing after a
single injection returns exactly the injected unit and restores the fresh
worker. -/
theorem claim_C3_amended_unbuffered_queue (name fileName : String)
    (minThreads : Int) (env : PreparedEnv) (r : WorkerRequest) :
    (NewWorker name fileName minThreads env).requestChanCap = 0 ∧
    (NewWorker name fileName minThreads env).requestChan = [] ∧
    ProvideRequest (InjectRequest (NewWorker name fileName minThreads env) r)
      = (some r, NewWorker name fileName minThreads env) := by
  refine ⟨rfl, rfl, ?_⟩
  simp [NewWorker, InjectRequest, ProvideRequest]

/-- Helper: for any iteration outcome, the waiter machinery invokes the
callback exactly once — after the done event and with the engine-populated
return value — when the outcome is a dispatch with a non-nil callback, and
invokes nothing when no dispatch happened. -/
theorem waiterTrace_cases (o : IterOutcome) (ret : GoVal) :
    (∀ fc cb lg, o = IterOutcome.dispatched fc (some cb) lg →
        waiterTrace o ret = [WaiterEvent.awaitDone, WaiterEvent.invoke cb ret] ∧
        invokeCount (waiterTrace o ret) = 1) ∧
    (o.isDispatched = false → invokeCount (waiterTrace o ret) = 0) := by
  constructor
  · rintro fc cb lg rfl
    simp [waiterTrace, invokeCount, WaiterEvent.isInvoke]
  · intro h
    cases o with
    | panicNilDeref => simp [waiterTrace, invokeCount]
    | skip l => simp [waiterTrace, invokeCount]
    | dispatched fc af lg => simp [IterOutcome.isDispatched] at h

/-- Claim C2: in both pipe loops, when an iteration dispatches a request
context for a unit with a non-nil `AfterFunc`, the spawned waiter invokes the
callback exactly once, strictly after the done signal is received, with the
engine-populated `handlerReturn`; when the iteration dispatches nothing, the
callback is never invoked. -/
theorem claim_C2_callback_exactly_once (workerName : String) (threadIndex : Int)
    (adapt : HttpRequest → Except GoError FrankenRequest)
    (fromCtx : FrankenRequest → Option frankenPHPContext)
    (rq : Option WorkerRequest) (ret : GoVal) :
    (∀ fc cb lg,
        startWorkerIter workerName threadIndex adapt fromCtx rq
          = IterOutcome.dispatched fc (some cb) lg →
        waiterTrace (startWorkerIter workerName threadIndex adapt fromCtx rq) ret
            = [WaiterEvent.awaitDone, WaiterEvent.invoke cb ret] ∧
        invokeCount
            (waiterTrace (startWorkerIter workerName threadIndex adapt fromCtx rq)
              ret) = 1) ∧
    ((startWorkerIter workerName threadIndex adapt fromCtx rq).isDispatched
        = false →
      invokeCount
          (waiterTrace (startWorkerIter workerName threadIndex adapt fromCtx rq)
            ret) = 0) ∧
    (∀ fc cb lg,
        startExternalWorkerPipeIter workerName threadIndex adapt fromCtx rq
          = IterOutcome.dispatched fc (some cb) lg →
        waiterTrace
            (startExternalWorkerPipeIter workerName threadIndex adapt fromCtx rq)
            ret = [WaiterEvent.awaitDone, WaiterEvent.invoke cb ret] ∧
        invokeCount
            (waiterTrace
              (startExternalWorkerPipeIter workerName threadIndex adapt fromCtx rq)
              ret) = 1) ∧
    ((startExternalWorkerPipeIter workerName threadIndex adapt fromCtx
          rq).isDispatched = false →
      invokeCount
          (waiterTrace
            (startExternalWorkerPipeIter workerName threadIndex adapt fromCtx rq)
            ret) = 0) :=
  ⟨(waiterTrace_cases _ ret).1, (waiterTrace_cases _ ret).2,
    (waiterTrace_cases _ ret).1, (waiterTrace_cases _ ret).2⟩

/-- Witness for C2: a dispatched empty-payload unit with callback token 5 and
engine return value `some 7` yields exactly one invocation, after the done
event, carrying `some 7`. -/
theorem claim_C2_witness :
    waiterTrace
        (startWorkerIter "w" 0 (fun r => Except.ok r) (fun _ => none)
          (some { Request := none, Response := some 3,
                  CallbackParameters := some 4, AfterFunc := some 5 }))
        (some 7)
      = [WaiterEvent.awaitDone, WaiterEvent.invoke 5 (some 7)] ∧
    invokeCount
        (waiterTrace
          (startWorkerIter "w" 0 (fun r => Except.ok r) (fun _ => none)
            (some { Request := none, Response := some 3,
                    CallbackParameters := some 4, AfterFunc := some 5 }))
          (some 7)) = 1 :=
  (claim_C2_callback_exactly_once "w" 0 (fun r => Except.ok r) (fun _ => none)
      (some { Request := none, Response := some 3, CallbackParameters := some 4,
              AfterFunc := some 5 }) (some 7)).1
    { originalRequest := none, worker := some "w", responseWriter := some 3,
      handlerParameters := some 4, hasLogger := true }
    5
    { level := .info, message := "queue the external worker request",
      workerName := "w", threadIndex := 0, err := none }
    rfl

/-- Claim C1 counterexample: in `startWorker`, a nil `*WorkerRequest` is
dereferenced (`rq.Request`) and the iteration panics instead of synthesizing
an empty context; and in `startExternalWorkerPipe`, a unit with a nil payload
is logged at warn level and skipped — nothing is dispatched. -/
theorem claim_C1_counterexample :
    startWorkerIter "w" 0 (fun r => Except.ok r) (fun _ => none) none
      = IterOutcome.panicNilDeref ∧
    startExternalWorkerPipeIter "w" 0 (fun r => Except.ok r) (fun _ => none)
        (some { Request := none, Response := none,
                CallbackParameters := none, AfterFunc := none })
      = IterOutcome.skip (some
          { level := .warn
            message := "external worker provided nil request"
            workerName := "w"
            threadIndex := 0
            err := none }) :=
  ⟨rfl, rfl⟩

/-- Claim C1 as amended: in `startWorker`, a non-nil `WorkerRequest` whose
payload is nil yields a synthesized empty request context — carrying no
inbound request, with the logger attached and the response writer of the unit and
parameters — dispatched on the request channel of the worker; the loop does not
terminate there and processes the remaining units unchanged. A nil
`WorkerRequest` itself, however, panics and ends the loop; and in
`startExternalWorkerPipe`, both a nil `WorkerRequest` and a nil-payload unit
are logged at warn level and dropped without dispatch, the loop continuing
past them. -/
theorem claim_C1_amended_nil_handling (workerName : String) (threadIndex : Int)
    (adapt : HttpRequest → Except GoError FrankenRequest)
    (fromCtx : FrankenRequest → Option frankenPHPContext)
    (rq : WorkerRequest) (hreq : rq.Request = none)
    (rest : List (Option WorkerRequest)) :
    startWorkerIter workerName threadIndex adapt fromCtx (some rq)
      = IterOutcome.dispatched
          { originalRequest := none
            worker := some workerName
            responseWriter := rq.Response
            handlerParameters := rq.CallbackParameters
            hasLogger := true }
          rq.AfterFunc
          { level := .info
            message := "queue the external worker request"
            workerName := workerName
            threadIndex := threadIndex
            err := none } ∧
    startWorkerLoop workerName threadIndex adapt fromCtx (some rq :: rest)
      = startWorkerIter workerName threadIndex adapt fromCtx (some rq)
          :: startWorkerLoop workerName threadIndex adapt fromCtx rest ∧
    startWorkerLoop workerName threadIndex adapt fromCtx (none :: rest)
      = [IterOutcome.panicNilDeref] ∧
    startExternalWorkerPipeIter workerName threadIndex adapt fromCtx (some rq)
      = IterOutcome.skip (some
          { level := .warn
            message := "external worker provided nil request"
            workerName := workerName
            threadIndex := threadIndex
            err := none }) ∧
    startExternalWorkerPipeLoop workerName threadIndex adapt fromCtx
        (some rq :: rest)
      = startExternalWorkerPipeIter workerName threadIndex adapt fromCtx (some rq)
          :: startExternalWorkerPipeLoop workerName threadIndex adapt fromCtx
              rest ∧
    startExternalWorkerPipeIter workerName threadIndex adapt fromCtx none
      = IterOutcome.skip (some
          { level := .warn
            message := "external worker provided nil request"
            workerName := workerName
            threadIndex := threadIndex
            err := none }) ∧
    startExternalWorkerPipeLoop workerName threadIndex adapt fromCtx
        (none :: rest)
      = startExternalWorkerPipeIter workerName threadIndex adapt fromCtx none
          :: startExternalWorkerPipeLoop workerName threadIndex adapt fromCtx
              rest := by
  obtain ⟨req, resp, params, af⟩ := rq
  cases req with
  | some r => simp at hreq
  | none => exact ⟨rfl, rfl, rfl, rfl, rfl, rfl, rfl⟩

/-- Witness for C1 as amended: a concrete nil-payload unit is dispatched as a
synthesized empty context. -/
theorem claim_C1_amended_witness :
    startWorkerIter "w" 0 (fun r => Except.ok r) (fun _ => none)
        (some { Request := none, Response := some 3,
                CallbackParameters := some 4, AfterFunc := some 5 })
      = IterOutcome.dispatched
          { originalRequest := none, worker := some "w",
            responseWriter := some 3, handlerParameters := some 4,
            hasLogger := true }
          (some 5)
          { level := .info, message := "queue the external worker request",
            workerName := "w", threadIndex := 0, err := none } :=
  (claim_C1_amended_nil_handling "w" 0 (fun r => Except.ok r) (fun _ => none)
      { Request := none, Response := some 3, CallbackParameters := some 4,
        AfterFunc := some 5 } rfl []).1

/-- Claim C4: in both pipe loops, a unit whose payload is present but fails
adaptation is logged at error level with the worker identity, the thread
identity and the error; nothing is dispatched, the completion callback of the unit
can never be invoked, and the loop proceeds to the remaining units
unchanged. -/
theorem claim_C4_malformed_logged_skipped (workerName : String)
    (threadIndex : Int) (adapt : HttpRequest → Except GoError FrankenRequest)
    (fromCtx : FrankenRequest → Option frankenPHPContext)
    (rq : WorkerRequest) (r : HttpRequest) (e : GoError)
    (hreq : rq.Request = some r) (herr : adapt r = Except.error e)
    (rest : List (Option WorkerRequest)) (ret : GoVal) :
    startWorkerIter workerName threadIndex adapt fromCtx (some rq)
      = IterOutcome.skip (some
          { level := .error
            message := "error creating request for external worker"
            workerName := workerName
            threadIndex := threadIndex
            err := some e }) ∧
    startWorkerLoop workerName threadIndex adapt fromCtx (some rq :: rest)
      = startWorkerIter workerName threadIndex adapt fromCtx (some rq)
          :: startWorkerLoop workerName threadIndex adapt fromCtx rest ∧
    waiterTrace (startWorkerIter workerName threadIndex adapt fromCtx (some rq))
        ret = [] ∧
    startExternalWorkerPipeIter workerName threadIndex adapt fromCtx (some rq)
      = IterOutcome.skip (some
          { level := .error
            message := "error creating request for external worker"
            workerName := workerName
            threadIndex := threadIndex
            err := some e }) ∧
    startExternalWorkerPipeLoop workerName threadIndex adapt fromCtx
        (some rq :: rest)
      = startExternalWorkerPipeIter workerName threadIndex adapt fromCtx (some rq)
          :: startExternalWorkerPipeLoop workerName threadIndex adapt fromCtx
              rest ∧
    waiterTrace
        (startExternalWorkerPipeIter workerName threadIndex adapt fromCtx
          (some rq)) ret = [] := by
  obtain ⟨req, resp, params, af⟩ := rq
  cases req with
  | none => simp at hreq
  | some r0 =>
    simp only [Option.some.injEq] at hreq
    subst hreq
    refine ⟨?_, ?_, ?_, ?_, ?_, ?_⟩ <;>
      simp [startWorkerIter, startWorkerLoop, startExternalWorkerPipeIter,
        startExternalWorkerPipeLoop, waiterTrace, herr]

/-- Witness for C4: a concrete malformed unit is logged and skipped. -/
theorem claim_C4_witness :
    startWorkerIter "w" 0 (fun _ => Except.error "boom") (fun _ => none)
        (some { Request := some 9, Response := none,
                CallbackParameters := none, AfterFunc := some 5 })
      = IterOutcome.skip (some
          { level := .error
            message := "error creating request for external worker"
            workerName := "w"
            threadIndex := 0
            err := some "boom" }) :=
  (claim_C4_malformed_logged_skipped "w" 0 (fun _ => Except.error "boom")
      (fun _ => none)
      { Request := some 9, Response := none, CallbackParameters := none,
        AfterFunc := some 5 } 9 "boom" rfl rfl [] none).1

/-- Claim C9: in both pipe loops, a unit whose payload adapts successfully but
whose context lookup reports not-ok is dropped completely silently: the
iteration skips with no log record, nothing is dispatched, the completion
callback is never invoked, and the loop proceeds to the remaining units
unchanged. -/
theorem claim_C9_context_lookup_silent_drop (workerName : String)
    (threadIndex : Int) (adapt : HttpRequest → Except GoError FrankenRequest)
    (fromCtx : FrankenRequest → Option frankenPHPContext)
    (rq : WorkerRequest) (r : HttpRequest) (fr : FrankenRequest)
    (hreq : rq.Request = some r) (hadapt : adapt r = Except.ok fr)
    (hctx : fromCtx fr = none)
    (rest : List (Option WorkerRequest)) (ret : GoVal) :
    startWorkerIter workerName threadIndex adapt fromCtx (some rq)
      = IterOutcome.skip none ∧
    (startWorkerIter workerName threadIndex adapt fromCtx
        (some rq)).isDispatched = false ∧
    (startWorkerIter workerName threadIndex adapt fromCtx (some rq)).logOf
      = none ∧
    waiterTrace (startWorkerIter workerName threadIndex adapt fromCtx (some rq))
        ret = [] ∧
    startWorkerLoop workerName threadIndex adapt fromCtx (some rq :: rest)
      = IterOutcome.skip none
          :: startWorkerLoop workerName threadIndex adapt fromCtx rest ∧
    startExternalWorkerPipeIter workerName threadIndex adapt fromCtx (some rq)
      = IterOutcome.skip none ∧
    (startExternalWorkerPipeIter workerName threadIndex adapt fromCtx
        (some rq)).logOf = none ∧
    waiterTrace
        (startExternalWorkerPipeIter workerName threadIndex adapt fromCtx
          (some rq)) ret = [] ∧
    startExternalWorkerPipeLoop workerName threadIndex adapt fromCtx
        (some rq :: rest)
      = IterOutcome.skip none
          :: startExternalWorkerPipeLoop workerName threadIndex adapt fromCtx
              rest := by
  obtain ⟨req, resp, params, af⟩ := rq
  cases req with
  | none => simp at hreq
  | some r0 =>
    simp only [Option.some.injEq] at hreq
    subst hreq
    refine ⟨?_, ?_, ?_, ?_, ?_, ?_, ?_, ?_, ?_⟩ <;>
      simp [startWorkerIter, startWorkerLoop, startExternalWorkerPipeIter,
        startExternalWorkerPipeLoop, waiterTrace, IterOutcome.isDispatched,
        IterOutcome.logOf, hadapt, hctx]

/-- Witness for C9: a concrete unit whose context lookup fails is dropped with
no log record. -/
theorem claim_C9_witness :
    startWorkerIter "w" 0 (fun r => Except.ok r) (fun _ => none)
        (some { Request := some 9, Response := none,
                CallbackParameters := none, AfterFunc := some 5 })
      = IterOutcome.skip none :=
  (claim_C9_context_lookup_silent_drop "w" 0 (fun r => Except.ok r)
      (fun _ => none)
      { Request := some 9, Response := none, CallbackParameters := none,
        AfterFunc := some 5 } 9 9 rfl rfl rfl [] none).1
